import Mathlib

/-!
Shallow embedding of the pose-analysis repository (game-analyze):
`src/main.py` and `src/web_app_backend.py`.

The repository's own logic is the Skeleton Renderer (filtering a fixed
landmark/connection list by a visibility threshold and mapping normalized
coordinates to pixel space), frame seeking by index, and the HTTP endpoints
wrapping them.  All pose inference and video decoding is external; it is
modelled as function parameters and `Option`-valued inputs.  Drawing
primitives (`cv2.line`, `cv2.circle`) are external too: a frame buffer is
modelled as its pixel grid together with the trace of drawing commands
issued on it, so two buffers render identically iff their base pixels and
command traces are equal.  Python floats are modelled as rationals.
-/

namespace GameAnalyze

/-- One BGR pixel. -/
abbrev Pixel := ℕ × ℕ × ℕ

/-- A decoded video frame: an H x W pixel grid (`frame.shape` gives H, W). -/
structure Frame where
  data : List (List Pixel)
deriving DecidableEq, Repr

/-- `h, w, _ = frame.shape` : the height is the number of rows. -/
def Frame.height (f : Frame) : ℕ := f.data.length

/-- `h, w, _ = frame.shape` : the width is the length of a row. -/
def Frame.width (f : Frame) : ℕ := (f.data.headD []).length

/-- One pose landmark as produced by the external mediapipe model:
normalized position and visibility score (floats modelled as ℚ). -/
structure Landmark where
  x : ℚ
  y : ℚ
  z : ℚ
  visibility : ℚ
deriving DecidableEq, Repr

/-- mediapipe `PoseLandmark.NOSE.value` (external enum constant). -/
def NOSE : ℕ := 0

/-- mediapipe `PoseLandmark.LEFT_SHOULDER.value`. -/
def LEFT_SHOULDER : ℕ := 11

/-- mediapipe `PoseLandmark.RIGHT_SHOULDER.value`. -/
def RIGHT_SHOULDER : ℕ := 12

/-- mediapipe `PoseLandmark.LEFT_ELBOW.value`. -/
def LEFT_ELBOW : ℕ := 13

/-- mediapipe `PoseLandmark.RIGHT_ELBOW.value`. -/
def RIGHT_ELBOW : ℕ := 14

/-- mediapipe `PoseLandmark.LEFT_WRIST.value`. -/
def LEFT_WRIST : ℕ := 15

/-- mediapipe `PoseLandmark.RIGHT_WRIST.value`. -/
def RIGHT_WRIST : ℕ := 16

/-- mediapipe `PoseLandmark.LEFT_HIP.value`. -/
def LEFT_HIP : ℕ := 23

/-- mediapipe `PoseLandmark.RIGHT_HIP.value`. -/
def RIGHT_HIP : ℕ := 24

/-- mediapipe `PoseLandmark.LEFT_KNEE.value`. -/
def LEFT_KNEE : ℕ := 25

/-- mediapipe `PoseLandmark.RIGHT_KNEE.value`. -/
def RIGHT_KNEE : ℕ := 26

/-- mediapipe `PoseLandmark.LEFT_ANKLE.value`. -/
def LEFT_ANKLE : ℕ := 27

/-- mediapipe `PoseLandmark.RIGHT_ANKLE.value`. -/
def RIGHT_ANKLE : ℕ := 28

/-- The mediapipe pose model returns a fixed-length list of 33 landmarks
(the full `PoseLandmark` enumeration, values 0..32). External constant. -/
def NUM_POSE_LANDMARKS : ℕ := 33

/-- `SIMPLE_CONNECTIONS` (identical in `src/main.py` lines 14-35 and
`src/web_app_backend.py` lines 32-47): the Bone Set, pairs of landmark
indices connected by a drawn segment. -/
def SIMPLE_CONNECTIONS : List (ℕ × ℕ) := [
  (NOSE, LEFT_SHOULDER),
  (NOSE, RIGHT_SHOULDER),
  (LEFT_SHOULDER, RIGHT_SHOULDER),
  (LEFT_SHOULDER, LEFT_HIP),
  (RIGHT_SHOULDER, RIGHT_HIP),
  (LEFT_HIP, RIGHT_HIP),
  (LEFT_SHOULDER, LEFT_ELBOW),
  (LEFT_ELBOW, LEFT_WRIST),
  (RIGHT_SHOULDER, RIGHT_ELBOW),
  (RIGHT_ELBOW, RIGHT_WRIST),
  (LEFT_HIP, LEFT_KNEE),
  (LEFT_KNEE, LEFT_ANKLE),
  (RIGHT_HIP, RIGHT_KNEE),
  (RIGHT_KNEE, RIGHT_ANKLE)]

/-- `KEY_LANDMARKS` (identical in both source files): the Joint Set, the
13 landmark indices drawn as filled circles. -/
def KEY_LANDMARKS : List ℕ := [
  NOSE,
  LEFT_SHOULDER,
  RIGHT_SHOULDER,
  LEFT_ELBOW,
  RIGHT_ELBOW,
  LEFT_WRIST,
  RIGHT_WRIST,
  LEFT_HIP,
  RIGHT_HIP,
  LEFT_KNEE,
  RIGHT_KNEE,
  LEFT_ANKLE,
  RIGHT_ANKLE]

/-- A drawing primitive issued on a frame buffer (`cv2.line` /
`cv2.circle` call with its arguments).  The pixel effect of a command is
external (OpenCV); a buffer's rendered content is determined by its base
pixels and its command trace. -/
inductive DrawCmd where
  | line (p q : ℤ × ℤ) (color : Pixel) (thickness : ℕ)
  | circle (p : ℤ × ℤ) (radius : ℕ) (color : Pixel) (fill : Bool)
deriving DecidableEq, Repr

/-- A frame buffer being drawn on: its base pixel grid plus the trace of
drawing commands issued on it, in order.  A freshly decoded or copied
frame has an empty trace. -/
structure Annotated where
  base : Frame
  cmds : List DrawCmd
deriving DecidableEq, Repr

/-- Issue one drawing command on a buffer (mutation of the numpy array,
modelled as appending to the trace; the shape is unchanged). -/
def Annotated.add (a : Annotated) (c : DrawCmd) : Annotated :=
  ⟨a.base, a.cmds ++ [c]⟩

/-- Shape of a buffer: drawing does not change it. -/
def Annotated.height (a : Annotated) : ℕ := a.base.height

/-- Shape of a buffer: drawing does not change it. -/
def Annotated.width (a : Annotated) : ℕ := a.base.width

/-- Python `int()` applied to a rational: truncation toward zero. -/
def ratTrunc (q : ℚ) : ℤ := if 0 ≤ q then ⌊q⌋ else ⌈q⌉

/-- The coordinate conversion both source files apply when drawing:
`int(lm.x * w)` — scale the normalized coordinate by the frame dimension
and truncate toward zero. -/
def toPixel (coord : ℚ) (dim : ℕ) : ℤ := ratTrunc (coord * dim)

/-- Modelled from the spec: the spec claims the conversion is
`x_px = round(x * W)`, rounding to nearest. -/
def ratRound (q : ℚ) : ℤ := round q

/-- Landmark used when an index is looked up out of range (mediapipe
always returns all 33, so this default is never reached on real input). -/
def defaultLandmark : Landmark := ⟨0, 0, 0, 0⟩

/-- `result.pose_landmarks.landmark[i]`. -/
def nthLm (lms : List Landmark) (i : ℕ) : Landmark := lms.getD i defaultLandmark

/-- One keypoint entry of the backend response
(`src/web_app_backend.py` lines 102-108). -/
structure Keypoint where
  x : ℚ
  y : ℚ
  z : ℚ
  visibility : ℚ
deriving DecidableEq, Repr

/-- `analyze_frame` (`src/web_app_backend.py` lines 70-112).  The external
`pose.process` result is passed in as `lmsOpt : Option (List Landmark)`
(`none` models `result.pose_landmarks` being falsy).  Returns
`(annotated, keypoints, pose_found)`. -/
def analyzeFrame (frame : Frame) (lmsOpt : Option (List Landmark)) :
    Annotated × List Keypoint × Bool :=
  let annotated0 : Annotated := ⟨frame, []⟩
  let h := frame.height
  let w := frame.width
  match lmsOpt with
  | some lms =>
    let afterLines := SIMPLE_CONNECTIONS.foldl (fun ann conn =>
      let sp := nthLm lms conn.1
      let ep := nthLm lms conn.2
      if sp.visibility > 1/2 ∧ ep.visibility > 1/2 then
        ann.add (.line (toPixel sp.x w, toPixel sp.y h)
                       (toPixel ep.x w, toPixel ep.y h) (0, 0, 255) 2)
      else ann) annotated0
    let afterCircles := KEY_LANDMARKS.foldl (fun ann idx =>
      let lm := nthLm lms idx
      if lm.visibility > 1/2 then
        ann.add (.circle (toPixel lm.x w, toPixel lm.y h) 3 (0, 255, 0) true)
      else ann) afterLines
    let keypoints := lms.map (fun lm =>
      ({ x := lm.x * w, y := lm.y * h, z := lm.z * w,
         visibility := lm.visibility } : Keypoint))
    (afterCircles, keypoints, true)
  | none => (annotated0, [], false)

/-- `analyze_and_annotate_frame` (`src/main.py` lines 65-97): same drawing
logic as the backend `analyze_frame`, but returns only
`(annotated, pose_found)`. -/
def analyzeAndAnnotateFrame (frame : Frame) (lmsOpt : Option (List Landmark)) :
    Annotated × Bool :=
  let annotated0 : Annotated := ⟨frame, []⟩
  let h := frame.height
  let w := frame.width
  match lmsOpt with
  | some lms =>
    let afterLines := SIMPLE_CONNECTIONS.foldl (fun ann conn =>
      let sp := nthLm lms conn.1
      let ep := nthLm lms conn.2
      if sp.visibility > 1/2 ∧ ep.visibility > 1/2 then
        ann.add (.line (toPixel sp.x w, toPixel sp.y h)
                       (toPixel ep.x w, toPixel ep.y h) (0, 0, 255) 2)
      else ann) annotated0
    let afterCircles := KEY_LANDMARKS.foldl (fun ann idx =>
      let lm := nthLm lms idx
      if lm.visibility > 1/2 then
        ann.add (.circle (toPixel lm.x w, toPixel lm.y h) 3 (0, 255, 0) true)
      else ann) afterLines
    (afterCircles, true)
  | none => (annotated0, false)

/-- The keypoint extraction of the desktop tool (`src/main.py` lines
304-307): `(lm.x * w, lm.y * h, lm.visibility)` per landmark, no z. -/
def mainKeypoints (w h : ℕ) (lms : List Landmark) : List (ℚ × ℚ × ℚ) :=
  lms.map (fun lm => (lm.x * w, lm.y * h, lm.visibility))

/-- The list of line commands the renderer issues: one segment per Bone
Set connection whose two endpoints both have visibility strictly above
0.5. -/
def lineCmdsFor (w h : ℕ) (lms : List Landmark) : List DrawCmd :=
  SIMPLE_CONNECTIONS.filterMap (fun conn =>
    let sp := nthLm lms conn.1
    let ep := nthLm lms conn.2
    if sp.visibility > 1/2 ∧ ep.visibility > 1/2 then
      some (.line (toPixel sp.x w, toPixel sp.y h)
                  (toPixel ep.x w, toPixel ep.y h) (0, 0, 255) 2)
    else none)

/-- The list of circle commands the renderer issues: one marker per Joint
Set index whose landmark has visibility strictly above 0.5. -/
def circleCmdsFor (w h : ℕ) (lms : List Landmark) : List DrawCmd :=
  KEY_LANDMARKS.filterMap (fun idx =>
    let lm := nthLm lms idx
    if lm.visibility > 1/2 then
      some (.circle (toPixel lm.x w, toPixel lm.y h) 3 (0, 255, 0) true)
    else none)

/-- An HTTP response: either a JSON payload or an error with a status
code and message. -/
inductive Resp (α : Type) where
  | ok (payload : α)
  | err (code : ℕ) (msg : String)
deriving DecidableEq, Repr

/-- An uploaded video as the backend reads it: the ordered stream of its
decoded frames.  `cap.set(CAP_PROP_POS_FRAMES, i)` followed by
`cap.read()` yields frame `i` when it exists and `ret = False` past the
stream end, modelled by `List.get?`. -/
abbrev Video := List Frame

/-- The external pose model handle: `pose.process` on a frame yields the
full landmark list or nothing.  Passed as a parameter (black box). -/
abbrev PoseModel := Frame → Option (List Landmark)

/-- One entry of an analyze response (`src/web_app_backend.py` lines
217-222 and 249-254): frame index, pose flag, keypoints, annotated
image (JPEG encoding is external; the buffer itself is kept). -/
structure AnalysisEntry where
  frame_index : ℕ
  has_pose : Bool
  keypoints : List Keypoint
  annotated_image : Annotated
deriving DecidableEq, Repr

/-- `read_frame` (`src/main.py` lines 54-63).  `video?` is `none` when
the file cannot be opened; failure raises `RuntimeError`, modelled as
`Except.error` with the message. -/
def read_frame (video? : Option Video) (frame_idx : ℕ) : Except String Frame :=
  match video? with
  | none => .error "Cannot open video"
  | some v =>
    match v.get? frame_idx with
    | none => .error ("Could not grab frame " ++ toString frame_idx)
    | some frame => .ok frame

/-- `get_frame` (`src/web_app_backend.py` lines 162-186).  `video?` is
`none` when the uploaded file does not exist. -/
def get_frame (video? : Option Video) (frame_index : ℕ) : Resp (ℕ × Frame) :=
  match video? with
  | none => .err 404 "Video not found"
  | some v =>
    match v.get? frame_index with
    | none => .err 404 "Frame not found"
    | some frame => .ok (frame_index, frame)

/-- `analyze_frame_endpoint` (`src/web_app_backend.py` lines 189-222).
`body_frame_index` is `none` when the JSON body omits `frame_index`
(`data.get('frame_index', 0)` then defaults it to 0). -/
def analyze_frame_endpoint (video? : Option Video) (body_frame_index : Option ℕ)
    (pose : PoseModel) : Resp AnalysisEntry :=
  let frame_index := body_frame_index.getD 0
  match video? with
  | none => .err 404 "Video not found"
  | some v =>
    match v.get? frame_index with
    | none => .err 404 "Frame not found"
    | some frame =>
      let r := analyzeFrame frame (pose frame)
      .ok ⟨frame_index, r.2.2, r.2.1, r.1⟩

/-- `analyze_batch_frames` (`src/web_app_backend.py` lines 225-259):
reject batches over 50 indices with a 400, then loop over the indices,
silently skipping any whose read fails, appending a result entry for
each readable frame. -/
def analyze_batch_frames (video? : Option Video) (frame_indices : List ℕ)
    (pose : PoseModel) : Resp (List AnalysisEntry) :=
  match video? with
  | none => .err 404 "Video not found"
  | some v =>
    if frame_indices.length > 50 then .err 400 "Too many frames (max 50)"
    else
      .ok (frame_indices.foldl (fun results frame_index =>
        match v.get? frame_index with
        | some frame =>
          let r := analyzeFrame frame (pose frame)
          results ++ [⟨frame_index, r.2.2, r.2.1, r.1⟩]
        | none => results) [])

/-- The entry produced for one readable frame of a batch. -/
def batchEntry (pose : PoseModel) (frame_index : ℕ) (frame : Frame) :
    AnalysisEntry :=
  let r := analyzeFrame frame (pose frame)
  ⟨frame_index, r.2.2, r.2.1, r.1⟩

/-- A heap of frame buffers, indexed by position: models which numpy
array each name refers to, so that aliasing and in-place mutation are
expressible.  Buffer ids are list positions. -/
abbrev Store := List Annotated

/-- Placeholder buffer for out-of-range lookups. -/
def dummyBuf : Annotated := ⟨⟨[]⟩, []⟩

/-- Mutate the buffer `tgt` in place by issuing one drawing command on
it; every other buffer is untouched. -/
def storeDraw (s : Store) (tgt : ℕ) (c : DrawCmd) : Store :=
  s.set tgt ((s.getD tgt dummyBuf).add c)

/-- `analyze_frame` again, now with buffer identity made explicit:
`annotated = frame.copy()` allocates a fresh buffer at the end of the
store, and every `cv2.line` / `cv2.circle` call mutates that buffer and
only it.  Returns the new store, the id of the annotated buffer, the
keypoints and the pose flag. -/
def analyzeFrameStore (s : Store) (frameId : ℕ) (lmsOpt : Option (List Landmark)) :
    Store × ℕ × List Keypoint × Bool :=
  let frame := s.getD frameId dummyBuf
  let annId := s.length
  let s1 := s ++ [frame]
  let h := frame.height
  let w := frame.width
  match lmsOpt with
  | some lms =>
    let s2 := SIMPLE_CONNECTIONS.foldl (fun st conn =>
      let sp := nthLm lms conn.1
      let ep := nthLm lms conn.2
      if sp.visibility > 1/2 ∧ ep.visibility > 1/2 then
        storeDraw st annId (.line (toPixel sp.x w, toPixel sp.y h)
                                  (toPixel ep.x w, toPixel ep.y h) (0, 0, 255) 2)
      else st) s1
    let s3 := KEY_LANDMARKS.foldl (fun st idx =>
      let lm := nthLm lms idx
      if lm.visibility > 1/2 then
        storeDraw st annId (.circle (toPixel lm.x w, toPixel lm.y h) 3 (0, 255, 0) true)
      else st) s2
    let keypoints := lms.map (fun lm =>
      ({ x := lm.x * w, y := lm.y * h, z := lm.z * w,
         visibility := lm.visibility } : Keypoint))
    (s3, annId, keypoints, true)
  | none => (s1, annId, [], false)

/-- A concrete 3 x 3 black frame, used as evaluation input. -/
def testFrame : Frame := ⟨List.replicate 3 (List.replicate 3 (0, 0, 0))⟩

/-- A concrete full landmark list: all 33 landmarks at normalized
(1/2, 1/2) with visibility 1. -/
def testLms : List Landmark := List.replicate 33 ⟨1/2, 1/2, 0, 1⟩

/-- A concrete full landmark list with every visibility 0. -/
def zeroLms : List Landmark := List.replicate 33 ⟨1/2, 1/2, 0, 0⟩

/-- A concrete pose model that never detects a pose. -/
def nonePose : PoseModel := fun _ => none

/-- Placeholder frame for out-of-range stream lookups. -/
def defaultFrame : Frame := ⟨[]⟩

theorem nthLm_vis_zero (lms : List Landmark) (h : ∀ lm ∈ lms, lm.visibility = 0)
    (i : ℕ) : (nthLm lms i).visibility = 0 := by
  unfold nthLm List.getD
  cases hv : lms.get? i with
  | none => simp [defaultLandmark]
  | some lm => simpa using h lm (List.get?_mem hv)

theorem foldl_lines (w h : ℕ) (lms : List Landmark) (l : List (ℕ × ℕ))
    (a : Annotated) :
    l.foldl (fun ann conn =>
      let sp := nthLm lms conn.1
      let ep := nthLm lms conn.2
      if sp.visibility > 1/2 ∧ ep.visibility > 1/2 then
        ann.add (.line (toPixel sp.x w, toPixel sp.y h)
                       (toPixel ep.x w, toPixel ep.y h) (0, 0, 255) 2)
      else ann) a
    = ⟨a.base, a.cmds ++ l.filterMap (fun conn =>
      let sp := nthLm lms conn.1
      let ep := nthLm lms conn.2
      if sp.visibility > 1/2 ∧ ep.visibility > 1/2 then
        some (.line (toPixel sp.x w, toPixel sp.y h)
                    (toPixel ep.x w, toPixel ep.y h) (0, 0, 255) 2)
      else none)⟩ := by
  induction l generalizing a with
  | nil => simp
  | cons c cs ih =>
    simp only [List.foldl_cons, List.filterMap_cons]
    by_cases hc : (nthLm lms c.1).visibility > 1/2 ∧ (nthLm lms c.2).visibility > 1/2
    · rw [if_pos hc, if_pos hc, ih]
      simp [Annotated.add]
    · rw [if_neg hc, if_neg hc, ih]

theorem foldl_circles (w h : ℕ) (lms : List Landmark) (l : List ℕ)
    (a : Annotated) :
    l.foldl (fun ann idx =>
      let lm := nthLm lms idx
      if lm.visibility > 1/2 then
        ann.add (.circle (toPixel lm.x w, toPixel lm.y h) 3 (0, 255, 0) true)
      else ann) a
    = ⟨a.base, a.cmds ++ l.filterMap (fun idx =>
      let lm := nthLm lms idx
      if lm.visibility > 1/2 then
        some (.circle (toPixel lm.x w, toPixel lm.y h) 3 (0, 255, 0) true)
      else none)⟩ := by
  induction l generalizing a with
  | nil => simp
  | cons c cs ih =>
    simp only [List.foldl_cons, List.filterMap_cons]
    by_cases hc : (nthLm lms c).visibility > 1/2
    · rw [if_pos hc, if_pos hc, ih]
      simp [Annotated.add]
    · rw [if_neg hc, if_neg hc, ih]

theorem analyzeFrame_eq (frame : Frame) (lms : List Landmark) :
    analyzeFrame frame (some lms) =
      (⟨frame, lineCmdsFor frame.width frame.height lms ++
               circleCmdsFor frame.width frame.height lms⟩,
       lms.map (fun lm =>
         ({ x := lm.x * frame.width, y := lm.y * frame.height,
            z := lm.z * frame.width, visibility := lm.visibility } : Keypoint)),
       true) := by
  unfold analyzeFrame
  dsimp only
  rw [foldl_lines, foldl_circles]
  simp [lineCmdsFor, circleCmdsFor]

theorem analyzeAndAnnotateFrame_eq (frame : Frame) (lms : List Landmark) :
    analyzeAndAnnotateFrame frame (some lms) =
      (⟨frame, lineCmdsFor frame.width frame.height lms ++
               circleCmdsFor frame.width frame.height lms⟩, true) := by
  unfold analyzeAndAnnotateFrame
  dsimp only
  rw [foldl_lines, foldl_circles]
  simp [lineCmdsFor, circleCmdsFor]

theorem toPixel_half (W : ℕ) : toPixel (1/2) W = ((W / 2 : ℕ) : ℤ) := by
  unfold toPixel ratTrunc
  have h0 : (0:ℚ) ≤ 1/2 * W := by positivity
  rw [if_pos h0]
  have hw : (1/2 : ℚ) * W = (W : ℚ) / ((2 : ℕ) : ℚ) := by push_cast; ring
  rw [hw, Rat.floor_natCast_div_natCast]
  exact (Int.ofNat_div W 2).symm

theorem lineCmdsFor_nil (w h : ℕ) (lms : List Landmark)
    (hv : ∀ lm ∈ lms, lm.visibility = 0) : lineCmdsFor w h lms = [] := by
  unfold lineCmdsFor
  rw [List.filterMap_eq_nil_iff]
  intro conn _
  dsimp only
  rw [if_neg]
  rw [nthLm_vis_zero lms hv conn.1, nthLm_vis_zero lms hv conn.2]
  norm_num

theorem circleCmdsFor_nil (w h : ℕ) (lms : List Landmark)
    (hv : ∀ lm ∈ lms, lm.visibility = 0) : circleCmdsFor w h lms = [] := by
  unfold circleCmdsFor
  rw [List.filterMap_eq_nil_iff]
  intro idx _
  dsimp only
  rw [if_neg]
  rw [nthLm_vis_zero lms hv idx]
  norm_num

/-- Claim C1, counterexample: the claim says the renderer converts
normalized coordinates by rounding to nearest, `x_px = round(x * W)`, and
that a landmark at (0.5, 0.5) lands at `(round(0.5 W), round(0.5 H))`.
On a 3 x 3 frame with every landmark at normalized (0.5, 0.5) and fully
visible, the first drawn segment has endpoint (1, 1), while rounding
`0.5 * 3 = 1.5` to nearest gives 2: the code truncates (`int()`), it does
not round. -/
theorem claim_C1_counterexample :
    (analyzeFrame testFrame (some testLms)).1.cmds.head? =
      some (DrawCmd.line (1, 1) (1, 1) (0, 0, 255) 2) ∧
    ratRound ((1/2 : ℚ) * 3) = 2 ∧ (1 : ℤ) ≠ 2 := by
  refine ⟨?_, ?_, by decide⟩
  · norm_num [analyzeFrame, testFrame, testLms, SIMPLE_CONNECTIONS, KEY_LANDMARKS,
      nthLm, defaultLandmark, Annotated.add, toPixel, ratTrunc, Frame.height, Frame.width,
      NOSE, LEFT_SHOULDER, RIGHT_SHOULDER, LEFT_ELBOW, RIGHT_ELBOW, LEFT_WRIST, RIGHT_WRIST,
      LEFT_HIP, RIGHT_HIP, LEFT_KNEE, RIGHT_KNEE, LEFT_ANKLE, RIGHT_ANKLE,
      List.replicate, List.getD, List.foldl]
  · rw [ratRound, round_eq]
    norm_num

/-- Claim C1, amended: the renderer converts normalized coordinates to
pixel coordinates by truncation toward zero (Python `int()`):
`x_px = int(x * W)`, `y_px = int(y * H)` — every drawn segment and marker
uses `toPixel`; in particular a landmark at normalized (0.5, 0.5) maps to
the pixel `(⌊0.5 W⌋, ⌊0.5 H⌋) = (W / 2, H / 2)` (integer division), not
to `round(0.5 W)`. -/
theorem claim_C1 :
    (∀ (frame : Frame) (lms : List Landmark),
      (analyzeFrame frame (some lms)).1.cmds =
        lineCmdsFor frame.width frame.height lms ++
        circleCmdsFor frame.width frame.height lms) ∧
    (∀ (frame : Frame) (lms : List Landmark),
      (analyzeAndAnnotateFrame frame (some lms)).1.cmds =
        lineCmdsFor frame.width frame.height lms ++
        circleCmdsFor frame.width frame.height lms) ∧
    (∀ W : ℕ, toPixel (1/2) W = ((W / 2 : ℕ) : ℤ)) := by
  refine ⟨?_, ?_, toPixel_half⟩
  · intro frame lms
    rw [analyzeFrame_eq]
  · intro frame lms
    rw [analyzeAndAnnotateFrame_eq]

/-- Claim C2: whenever a pose is detected, the keypoint list has exactly
one entry per landmark of the list the model produced (all of it, not
just the Joint Set), in order, with x scaled by the frame width, y by the
frame height, z by the frame width, and the raw visibility attached
unfiltered; the desktop tool extracts the same list without z. -/
theorem claim_C2 (frame : Frame) (lms : List Landmark) :
    (analyzeFrame frame (some lms)).2.2 = true ∧
    ((analyzeFrame frame (some lms)).2.1).length = lms.length ∧
    (analyzeFrame frame (some lms)).2.1 = lms.map (fun lm =>
      ({ x := lm.x * frame.width, y := lm.y * frame.height,
         z := lm.z * frame.width, visibility := lm.visibility } : Keypoint)) ∧
    mainKeypoints frame.width frame.height lms = lms.map (fun lm =>
      (lm.x * (frame.width : ℚ), lm.y * (frame.height : ℚ), lm.visibility)) := by
  refine ⟨?_, ?_, ?_, rfl⟩ <;> simp [analyzeFrame_eq]

/-- Claim C3: a Bone Set segment is drawn exactly for the connections
whose two endpoint visibilities are strictly above 0.5, and a Joint Set
marker exactly for the indices whose visibility is strictly above 0.5
(the command trace equals the filtered lists); when every visibility is
0.0, nothing is drawn — the annotated buffer is the input frame with an
empty trace, hence pixel-identical to the input — while the keypoint list
still has one entry per landmark, each carrying visibility 0.0. -/
theorem claim_C3 (frame : Frame) (lms : List Landmark) :
    ((analyzeFrame frame (some lms)).1.cmds =
       lineCmdsFor frame.width frame.height lms ++
       circleCmdsFor frame.width frame.height lms) ∧
    ((∀ lm ∈ lms, lm.visibility = 0) →
      (analyzeFrame frame (some lms)).1 = ⟨frame, []⟩ ∧
      ((analyzeFrame frame (some lms)).2.1).length = lms.length ∧
      (∀ kp ∈ (analyzeFrame frame (some lms)).2.1, kp.visibility = 0)) := by
  constructor
  · rw [analyzeFrame_eq]
  · intro hv
    refine ⟨?_, by simp [analyzeFrame_eq], ?_⟩
    · rw [analyzeFrame_eq]
      simp [lineCmdsFor_nil _ _ _ hv, circleCmdsFor_nil _ _ _ hv]
    · rw [analyzeFrame_eq]
      simp only [List.mem_map]
      rintro kp ⟨lm, hm, rfl⟩
      exact hv lm hm

/-- Claim C3, witness: evaluated on a concrete 3 x 3 frame and the
all-zero-visibility landmark list. -/
theorem claim_C3_witness :
    (∀ lm ∈ zeroLms, lm.visibility = 0) ∧
    ((analyzeFrame testFrame (some zeroLms)).1 = ⟨testFrame, []⟩ ∧
     ((analyzeFrame testFrame (some zeroLms)).2.1).length = zeroLms.length ∧
     (∀ kp ∈ (analyzeFrame testFrame (some zeroLms)).2.1, kp.visibility = 0)) := by
  have hv : ∀ lm ∈ zeroLms, lm.visibility = 0 := by
    intro lm hm
    rw [List.eq_of_mem_replicate hm]
  exact ⟨hv, (claim_C3 testFrame zeroLms).2 hv⟩

/-- Claim C4: on the "no landmarks" signal the renderer returns a copy of
the input frame unchanged (same pixels, empty command trace), an empty
keypoint list, and `pose_found = false`; both entry points return
normally (total functions, no error path). -/
theorem claim_C4 (frame : Frame) :
    analyzeFrame frame none = (⟨frame, []⟩, [], false) ∧
    analyzeAndAnnotateFrame frame none = (⟨frame, []⟩, false) :=
  ⟨rfl, rfl⟩

/-- Claim C9: every landmark index in the Joint Set (`KEY_LANDMARKS`) and
in the Bone Set pairs (`SIMPLE_CONNECTIONS`) is strictly below 33, the
length of the full landmark enumeration the pose model produces, so every
landmark-list indexing operation performed during rendering is in
bounds. -/
theorem claim_C9 :
    (∀ conn ∈ SIMPLE_CONNECTIONS,
      conn.1 < NUM_POSE_LANDMARKS ∧ conn.2 < NUM_POSE_LANDMARKS) ∧
    (∀ idx ∈ KEY_LANDMARKS, idx < NUM_POSE_LANDMARKS) := by
  decide

/-- Claim C9, witness: the first Bone Set pair evaluated concretely. -/
theorem claim_C9_witness :
    NOSE < NUM_POSE_LANDMARKS ∧ LEFT_SHOULDER < NUM_POSE_LANDMARKS :=
  claim_C9.1 (NOSE, LEFT_SHOULDER) (by decide)

/-- Claim C5: a batch request of more than 50 frame indices on an
existing video is answered with HTTP 400 before any frame is read or
analyzed — the error response carries no result entry at all. -/
theorem claim_C5 (v : Video) (idxs : List ℕ) (pose : PoseModel)
    (h : idxs.length > 50) :
    analyze_batch_frames (some v) idxs pose =
      .err 400 "Too many frames (max 50)" := by
  unfold analyze_batch_frames
  dsimp only
  rw [if_pos h]

/-- Claim C5, witness: a request of 51 indices, evaluated concretely. -/
theorem claim_C5_witness :
    (List.replicate 51 0).length > 50 ∧
    analyze_batch_frames (some ([] : Video)) (List.replicate 51 0) nonePose =
      .err 400 "Too many frames (max 50)" :=
  ⟨by simp, claim_C5 [] (List.replicate 51 0) nonePose (by simp)⟩

theorem batch_foldl_eq (v : Video) (pose : PoseModel) (idxs : List ℕ)
    (acc : List AnalysisEntry) :
    idxs.foldl (fun results frame_index =>
      match v.get? frame_index with
      | some frame =>
        let r := analyzeFrame frame (pose frame)
        results ++ [⟨frame_index, r.2.2, r.2.1, r.1⟩]
      | none => results) acc
    = acc ++ idxs.filterMap (fun i =>
        (v.get? i).map (fun frame => batchEntry pose i frame)) := by
  induction idxs generalizing acc with
  | nil => simp
  | cons i is ih =>
    simp only [List.foldl_cons, List.filterMap_cons]
    cases hv : v.get? i with
    | none =>
      dsimp only
      exact ih acc
    | some frame =>
      dsimp only
      rw [ih]
      simp [batchEntry]

/-- Claim C6: a batch request of at most 50 indices is processed index by
index; an index beyond the stream end contributes no result entry and no
error (`v.get? i = none` is skipped), while every readable index still
produces its analysis entry, in request order; every returned entry
references an in-range frame index. -/
theorem claim_C6 (v : Video) (idxs : List ℕ) (pose : PoseModel)
    (h : idxs.length ≤ 50) :
    analyze_batch_frames (some v) idxs pose =
      .ok (idxs.filterMap (fun i =>
        (v.get? i).map (fun frame => batchEntry pose i frame))) ∧
    (∀ e ∈ idxs.filterMap (fun i =>
        (v.get? i).map (fun frame => batchEntry pose i frame)),
      e.frame_index < v.length ∧ e.frame_index ∈ idxs) := by
  constructor
  · unfold analyze_batch_frames
    dsimp only
    rw [if_neg (not_lt.mpr h), batch_foldl_eq]
    simp
  · intro e he
    rw [List.mem_filterMap] at he
    obtain ⟨i, hi, hmap⟩ := he
    cases hv : v.get? i with
    | none => rw [hv] at hmap; simp at hmap
    | some frame =>
      rw [hv] at hmap
      simp only [Option.map_some', Option.some_inj] at hmap
      have hlt : i < v.length := by
        by_contra hge
        rw [List.get?_eq_none.mpr (not_lt.mp hge)] at hv
        exact Option.noConfusion hv
      rw [← hmap]
      exact ⟨hlt, hi⟩

/-- Claim C6, witness: a 2-index batch on a 1-frame video — index 0 is
processed, index 5 is beyond the stream end and silently skipped. -/
theorem claim_C6_witness :
    ([0, 5] : List ℕ).length ≤ 50 ∧
    analyze_batch_frames (some [testFrame]) [0, 5] nonePose =
      .ok ([0, 5].filterMap (fun i =>
        (([testFrame] : Video).get? i).map
          (fun frame => batchEntry nonePose i frame))) :=
  ⟨by simp, (claim_C6 [testFrame] [0, 5] nonePose (by simp)).1⟩

/-- Claim C7: a single-frame request whose index is at or beyond the
stream end yields HTTP 404 "Frame not found" from both the get-frame and
the analyze endpoints, and a raised `RuntimeError` in the desktop tool's
`read_frame`. -/
theorem claim_C7 (v : Video) (i : ℕ) (pose : PoseModel) (h : v.length ≤ i) :
    get_frame (some v) i = .err 404 "Frame not found" ∧
    analyze_frame_endpoint (some v) (some i) pose =
      .err 404 "Frame not found" ∧
    read_frame (some v) i = .error ("Could not grab frame " ++ toString i) := by
  have hn : v.get? i = none := List.get?_eq_none.mpr h
  refine ⟨?_, ?_, ?_⟩
  · unfold get_frame
    dsimp only
    rw [hn]
  · unfold analyze_frame_endpoint
    dsimp only [Option.getD]
    rw [hn]
  · unfold read_frame
    dsimp only
    rw [hn]

/-- Claim C7, witness: requesting frame 3 of a 1-frame video. -/
theorem claim_C7_witness :
    ([testFrame] : Video).length ≤ 3 ∧
    (get_frame (some [testFrame]) 3 = .err 404 "Frame not found" ∧
     analyze_frame_endpoint (some [testFrame]) (some 3) nonePose =
       .err 404 "Frame not found" ∧
     read_frame (some [testFrame]) 3 =
       .error ("Could not grab frame " ++ toString 3)) :=
  ⟨by simp, claim_C7 [testFrame] 3 nonePose (by simp)⟩

/-- Claim C10: a POST body without `frame_index` is not rejected — the
endpoint behaves exactly as if `frame_index = 0` had been sent, and when
the video has a frame 0 it returns the analysis of frame 0. -/
theorem claim_C10 (v : Video) (pose : PoseModel) :
    analyze_frame_endpoint (some v) none pose =
      analyze_frame_endpoint (some v) (some 0) pose ∧
    (∀ frame, v.get? 0 = some frame →
      analyze_frame_endpoint (some v) none pose =
        .ok ⟨0, (analyzeFrame frame (pose frame)).2.2,
             (analyzeFrame frame (pose frame)).2.1,
             (analyzeFrame frame (pose frame)).1⟩) := by
  constructor
  · rfl
  · intro frame hf
    unfold analyze_frame_endpoint
    dsimp only [Option.getD]
    rw [hf]

/-- Claim C10, witness: a body with no `frame_index` on a 1-frame video
analyzes frame 0 (here: no pose detected, input returned unannotated). -/
theorem claim_C10_witness :
    ([testFrame] : Video).get? 0 = some testFrame ∧
    analyze_frame_endpoint (some [testFrame]) none nonePose =
      .ok ⟨0, false, [], ⟨testFrame, []⟩⟩ :=
  ⟨rfl, (claim_C10 [testFrame] nonePose).2 testFrame rfl⟩

theorem storeDraw_get?_ne (s : Store) (tgt j : ℕ) (c : DrawCmd) (h : tgt ≠ j) :
    (storeDraw s tgt c).get? j = s.get? j := by
  unfold storeDraw
  exact List.get?_set_ne _ _ h

theorem storeDraw_base (s : Store) (tgt : ℕ) (c : DrawCmd) :
    ((storeDraw s tgt c).getD tgt dummyBuf).base = (s.getD tgt dummyBuf).base := by
  unfold storeDraw
  rcases lt_or_ge tgt s.length with hlt | hge
  · rw [List.getD_eq_getD_get?, List.get?_set_eq_of_lt _ hlt]
    simp [Annotated.add]
  · rw [List.set_eq_of_length_le hge]

theorem foldl_store_inv {α : Type} (P : Store → Prop) (f : Store → α → Store)
    (l : List α) (s : Store) (h0 : P s)
    (hstep : ∀ st x, P st → P (f st x)) : P (l.foldl f s) := by
  induction l generalizing s with
  | nil => exact h0
  | cons x xs ih => exact ih _ (hstep s x h0)

/-- Claim C8: the renderer never mutates the input frame buffer — it
allocates a fresh buffer (`frame.copy()`), draws only on that buffer, and
returns it: the returned buffer id is new (distinct from every existing
id, in particular from the input), the input buffer's content is
unchanged, and the returned buffer's base pixels are a copy of the
input's. -/
theorem claim_C8 (s : Store) (frameId : ℕ) (lmsOpt : Option (List Landmark))
    (h : frameId < s.length) :
    (analyzeFrameStore s frameId lmsOpt).2.1 = s.length ∧
    (analyzeFrameStore s frameId lmsOpt).2.1 ≠ frameId ∧
    (analyzeFrameStore s frameId lmsOpt).1.get? frameId = s.get? frameId ∧
    ((analyzeFrameStore s frameId lmsOpt).1.getD
        (analyzeFrameStore s frameId lmsOpt).2.1 dummyBuf).base =
      (s.getD frameId dummyBuf).base := by
  have hne : s.length ≠ frameId := (Nat.ne_of_lt h).symm
  unfold analyzeFrameStore
  cases lmsOpt with
  | none =>
    dsimp only
    refine ⟨rfl, hne, List.get?_append h, ?_⟩
    rw [List.getD_eq_getD_get?, List.get?_concat_length]
    rfl
  | some lms =>
    dsimp only
    set frame := s.getD frameId dummyBuf with hframe
    have hP : ∀ st : Store,
        (st.get? frameId = s.get? frameId ∧
         (st.getD s.length dummyBuf).base = frame.base) →
        ∀ st2 : Store, st2 = st ∨ (∃ c, st2 = storeDraw st s.length c) →
        (st2.get? frameId = s.get? frameId ∧
         (st2.getD s.length dummyBuf).base = frame.base) := by
      rintro st ⟨h1, h2⟩ st2 (rfl | ⟨c, rfl⟩)
      · exact ⟨h1, h2⟩
      · exact ⟨(storeDraw_get?_ne st s.length frameId c hne).trans h1,
          (storeDraw_base st s.length c).trans h2⟩
    have base0 : ((s ++ [frame]).getD s.length dummyBuf).base = frame.base := by
      rw [List.getD_eq_getD_get?, List.get?_concat_length]
      rfl
    have inv2 : ∀ st : Store,
        (st.get? frameId = s.get? frameId ∧
         (st.getD s.length dummyBuf).base = frame.base) →
        (KEY_LANDMARKS.foldl (fun st idx =>
          let lm := nthLm lms idx
          if lm.visibility > 1/2 then
            storeDraw st s.length (.circle (toPixel lm.x frame.width,
              toPixel lm.y frame.height) 3 (0, 255, 0) true)
          else st) st).get? frameId = s.get? frameId ∧
        ((KEY_LANDMARKS.foldl (fun st idx =>
          let lm := nthLm lms idx
          if lm.visibility > 1/2 then
            storeDraw st s.length (.circle (toPixel lm.x frame.width,
              toPixel lm.y frame.height) 3 (0, 255, 0) true)
          else st) st).getD s.length dummyBuf).base = frame.base := by
      intro st hst
      refine foldl_store_inv (fun st2 =>
        st2.get? frameId = s.get? frameId ∧
        (st2.getD s.length dummyBuf).base = frame.base) _ _ _ hst ?_
      intro st2 idx hst2
      dsimp only
      by_cases hc : (nthLm lms idx).visibility > 1/2
      · rw [if_pos hc]
        exact hP st2 hst2 _ (Or.inr ⟨_, rfl⟩)
      · rw [if_neg hc]
        exact hst2
    have inv1 :
        (SIMPLE_CONNECTIONS.foldl (fun st conn =>
          let sp := nthLm lms conn.1
          let ep := nthLm lms conn.2
          if sp.visibility > 1/2 ∧ ep.visibility > 1/2 then
            storeDraw st s.length (.line (toPixel sp.x frame.width,
              toPixel sp.y frame.height) (toPixel ep.x frame.width,
              toPixel ep.y frame.height) (0, 0, 255) 2)
          else st) (s ++ [frame])).get? frameId = s.get? frameId ∧
        ((SIMPLE_CONNECTIONS.foldl (fun st conn =>
          let sp := nthLm lms conn.1
          let ep := nthLm lms conn.2
          if sp.visibility > 1/2 ∧ ep.visibility > 1/2 then
            storeDraw st s.length (.line (toPixel sp.x frame.width,
              toPixel sp.y frame.height) (toPixel ep.x frame.width,
              toPixel ep.y frame.height) (0, 0, 255) 2)
          else st) (s ++ [frame])).getD s.length dummyBuf).base = frame.base := by
      refine foldl_store_inv (fun st2 =>
        st2.get? frameId = s.get? frameId ∧
        (st2.getD s.length dummyBuf).base = frame.base) _ _ _
        ⟨List.get?_append h, base0⟩ ?_
      intro st2 conn hst2
      dsimp only
      by_cases hc : (nthLm lms conn.1).visibility > 1/2 ∧
          (nthLm lms conn.2).visibility > 1/2
      · rw [if_pos hc]
        exact hP st2 hst2 _ (Or.inr ⟨_, rfl⟩)
      · rw [if_neg hc]
        exact hst2
    have hfin := inv2 _ inv1
    exact ⟨rfl, hne, hfin.1, hfin.2⟩

/-- Claim C8, witness: a one-buffer store, renderer invoked on buffer 0
with the no-landmarks signal. -/
theorem claim_C8_witness :
    (0 : ℕ) < ([dummyBuf] : Store).length ∧
    ((analyzeFrameStore [dummyBuf] 0 none).2.1 = ([dummyBuf] : Store).length ∧
     (analyzeFrameStore [dummyBuf] 0 none).2.1 ≠ 0 ∧
     (analyzeFrameStore [dummyBuf] 0 none).1.get? 0 =
       ([dummyBuf] : Store).get? 0 ∧
     ((analyzeFrameStore [dummyBuf] 0 none).1.getD
         (analyzeFrameStore [dummyBuf] 0 none).2.1 dummyBuf).base =
       (([dummyBuf] : Store).getD 0 dummyBuf).base) :=
  ⟨by simp, claim_C8 [dummyBuf] 0 none (by simp)⟩

end GameAnalyze
